import Mathlib

/-!
Verification development for the cachegpt request-serving pipeline.

The definitions below are shallow embeddings of the Python source:
- `app/services/cache_service.py` (query hashing, exact/semantic lookup, store,
  hit-count update, usage logging)
- `app/routers/proxy.py` (chat_completions pipeline, cache stats)
- `app/services/subscription_service.py` (usage limits, feature flags,
  monthly usage increments)
- `app/utils/feature_gates.py` (check_usage_limit gate)
- `app/middleware/usage_middleware.py` (rate limiting, usage tracking)

External collaborators (Supabase tables, the OpenAI embedding/completion
endpoints, hashlib's sha256) are modelled as explicit parameters: a table is a
Lean list, a fallible collaborator call is an `Except` value supplied by the
caller, and the SHA-256 primitive is an arbitrary function `String → String`
(the code only ever feeds it the canonical serialization, so every property
proved here holds for the real hash as well).  Monetary amounts (Python
floats used only for exact arithmetic on literals in the claims considered
here) are modelled as rationals.
-/

namespace CacheGPT

/-! ## JSON serialization (`json.dumps`) as used by `generate_query_hash`

`cache_service.generate_query_hash` builds `{"messages": messages, "model":
model}` and serializes it with `json.dumps(..., sort_keys=True)` (default
separators `", "` and `": "`, `ensure_ascii=True`).  A chat message arrives as
a Python `Dict[str, str]`; we model it as an association list of string pairs
whose key set is duplicate-free (Python dicts cannot hold duplicate keys).
`sort_keys=True` emits each object's items sorted by key. -/

/-- A chat message as parsed from the request body: a JSON object with string
values, keys in insertion order. -/
abbrev Msg := List (String × String)

/-- Hexadecimal digit character (lowercase), as produced by Python's `\uXXXX`
escapes. -/
def hexDigitChar (n : Nat) : Char :=
  if n < 10 then Char.ofNat (48 + n) else Char.ofNat (87 + n)

/-- Four-digit lowercase hex rendering of `n % 0x10000`. -/
def hex4 (n : Nat) : String :=
  String.mk [hexDigitChar (n / 4096 % 16), hexDigitChar (n / 256 % 16),
             hexDigitChar (n / 16 % 16), hexDigitChar (n % 16)]

/-- `json.dumps` escaping for a single character (`ensure_ascii=True`):
quote and backslash are escaped, characters in `0x20..0x7e` pass through,
the common control characters get short escapes, everything else becomes
`\uXXXX` (with a surrogate pair beyond the BMP). -/
def escapeChar (c : Char) : String :=
  if c = Char.ofNat 34 then "\\\""
  else if c = Char.ofNat 92 then "\\\\"
  else if 0x20 ≤ c.toNat ∧ c.toNat ≤ 0x7e then String.mk [c]
  else if c = Char.ofNat 8 then "\\b"
  else if c = Char.ofNat 9 then "\\t"
  else if c = Char.ofNat 10 then "\\n"
  else if c = Char.ofNat 12 then "\\f"
  else if c = Char.ofNat 13 then "\\r"
  else if c.toNat ≤ 0xffff then "\\u" ++ hex4 c.toNat
  else
    "\\u" ++ hex4 (0xd800 + (c.toNat - 0x10000) / 1024) ++
    "\\u" ++ hex4 (0xdc00 + (c.toNat - 0x10000) % 1024)

/-- A JSON string literal: quoted, characters escaped. -/
def jsonEscapeString (s : String) : String :=
  "\"" ++ String.join (s.data.map escapeChar) ++ "\""

/-- Lexicographic code-point comparison of character lists, Python's string
`<=` used by `sorted`. -/
def charListLe : List Char → List Char → Bool
  | [], _ => true
  | _ :: _, [] => false
  | a :: as, b :: bs => if a = b then charListLe as bs else decide (a < b)

/-- Python string comparison `s <= t` (code-point lexicographic). -/
def strLe (s t : String) : Bool := charListLe s.data t.data

/-- Ordering of object items by key, the order used by `sort_keys=True`. -/
def keyLE (p q : String × String) : Prop := strLe p.1 q.1 = true

/-- Strict version of `keyLE`, used only in proofs. -/
def keyLT (p q : String × String) : Prop := ¬ keyLE q p

instance : DecidableRel keyLE := fun p q =>
  inferInstanceAs (Decidable (strLe p.1 q.1 = true))

theorem charListLe_total : ∀ a b : List Char,
    charListLe a b = true ∨ charListLe b a = true
  | [], _ => .inl rfl
  | _ :: _, [] => .inr rfl
  | a :: as, b :: bs => by
    by_cases hab : a = b
    · subst hab
      simpa [charListLe] using charListLe_total as bs
    · rcases lt_trichotomy a b with h | h | h
      · exact .inl (by simp [charListLe, hab, h])
      · exact absurd h hab
      · exact .inr (by simp [charListLe, Ne.symm hab, h])

theorem charListLe_trans : ∀ {a b c : List Char},
    charListLe a b = true → charListLe b c = true → charListLe a c = true
  | [], _, _, _, _ => rfl
  | _ :: _, [], _, h1, _ => by simp [charListLe] at h1
  | _ :: _, _ :: _, [], _, h2 => by simp [charListLe] at h2
  | a :: as, b :: bs, c :: cs, h1, h2 => by
    by_cases hab : a = b <;> by_cases hbc : b = c
    · subst hab; subst hbc
      simp only [charListLe, if_pos rfl] at *
      exact charListLe_trans h1 h2
    · subst hab
      simp only [charListLe, if_pos rfl, if_neg hbc, decide_eq_true_eq] at *
      simp [hbc, h2]
    · subst hbc
      simp only [charListLe, if_neg hab, decide_eq_true_eq] at *
      simp [hab, h1]
    · simp only [charListLe, if_neg hab, if_neg hbc, decide_eq_true_eq] at h1 h2
      have hac : a < c := lt_trans h1 h2
      simp [charListLe, ne_of_lt hac, hac]

theorem charListLe_antisymm : ∀ {a b : List Char},
    charListLe a b = true → charListLe b a = true → a = b
  | [], [], _, _ => rfl
  | [], _ :: _, _, h2 => by simp [charListLe] at h2
  | _ :: _, [], h1, _ => by simp [charListLe] at h1
  | a :: as, b :: bs, h1, h2 => by
    by_cases hab : a = b
    · subst hab
      simp only [charListLe, if_pos rfl] at h1 h2
      rw [charListLe_antisymm h1 h2]
    · simp only [charListLe, if_neg hab, if_neg (Ne.symm hab),
        decide_eq_true_eq] at h1 h2
      exact absurd h2 (lt_asymm h1)

theorem strLe_total (s t : String) : strLe s t = true ∨ strLe t s = true :=
  charListLe_total s.data t.data

theorem strLe_antisymm {s t : String} (h1 : strLe s t = true)
    (h2 : strLe t s = true) : s = t := by
  cases s; cases t
  exact congrArg String.mk (charListLe_antisymm h1 h2)

instance : IsTotal (String × String) keyLE :=
  ⟨fun p q => strLe_total p.1 q.1⟩

instance : IsTrans (String × String) keyLE :=
  ⟨fun _ _ _ h1 h2 => charListLe_trans h1 h2⟩

instance : IsAntisymm (String × String) keyLT :=
  ⟨fun p q h1 h2 => by
    rcases strLe_total p.1 q.1 with h | h
    · exact absurd h h2
    · exact absurd h h1⟩

/-- The item list of a JSON object sorted by key (`sort_keys=True`). -/
def sortPairs (m : Msg) : Msg :=
  List.insertionSort keyLE m

/-- One `"key": value` item of a serialized object (default `": "`
separator). -/
def dumpsPair (p : String × String) : String :=
  jsonEscapeString p.1 ++ ": " ++ jsonEscapeString p.2

/-- `json.dumps` of one message object with `sort_keys=True`. -/
def dumpsMsg (m : Msg) : String :=
  "\x7b" ++ String.intercalate ", " ((sortPairs m).map dumpsPair) ++ "\x7d"

/-- `json.dumps` of the message array with `sort_keys=True`: array order is
preserved, only object keys are sorted. -/
def dumpsMessages (ms : List Msg) : String :=
  "[" ++ String.intercalate ", " (ms.map dumpsMsg) ++ "]"

/-- `json.dumps` of one message object without `sort_keys` (insertion
order), as used for `query_text = json.dumps(request.messages)` in
`proxy.chat_completions`. -/
def dumpsMsgRaw (m : Msg) : String :=
  "\x7b" ++ String.intercalate ", " (m.map dumpsPair) ++ "\x7d"

/-- `json.dumps(request.messages)` without `sort_keys`. -/
def dumpsMessagesRaw (ms : List Msg) : String :=
  "[" ++ String.intercalate ", " (ms.map dumpsMsgRaw) ++ "]"

/-- The string `generate_query_hash` feeds to SHA-256:
`json.dumps({"messages": messages, "model": model}, sort_keys=True)`.
The sorted top-level keys are the literals `"messages" < "model"`. -/
def canonicalRequestString (messages : List Msg) (model : String) : String :=
  "\x7b\"messages\": " ++ dumpsMessages messages ++
  ", \"model\": " ++ jsonEscapeString model ++ "\x7d"

/-- `CacheService.generate_query_hash`: SHA-256 hex digest of the canonical
serialization.  `sha256hex` stands for `hashlib.sha256(·.encode()).hexdigest()`,
an external deterministic primitive. -/
def generate_query_hash (sha256hex : String → String)
    (messages : List Msg) (model : String) : String :=
  sha256hex (canonicalRequestString messages model)

/-! Key-equality facts used for the canonicalization claim. -/

/-- Two insertion-order renderings of the same Python dict: the pair lists are
permutations of each other and keys are duplicate-free. -/
def sameDict (m1 m2 : Msg) : Prop :=
  m1.Perm m2 ∧ (m1.map Prod.fst).Nodup

/-! ## Cache store (`app/services/cache_service.py`, `app/models/cache.py`)

The Supabase tables `cache_entries` and `usage_logs` are modelled as lists of
rows.  `.single().execute()` raises unless the filtered result holds exactly
one row; the services catch that exception, so the embedding returns an
`Option`/no-op exactly where the Python handler does. -/

/-- A row of the `cache_entries` table (fields of `models/cache.py:CacheEntry`
that the pipeline reads or writes; `query_embedding` is stored stringified). -/
structure CacheEntryRow where
  id : Nat
  user_id : String
  query_hash : String
  query_text : String
  query_embedding : String
  response_text : String
  model_used : String
  tokens_saved : Nat
  cost_saved : Rat
  hit_count : Nat
  expires_at : Nat
deriving DecidableEq

/-- A row of the `usage_logs` table (`CacheService.log_usage` insert shape). -/
structure UsageLogRow where
  user_id : String
  api_key_id : Option String
  cache_hit : Bool
  tokens_used : Nat
  cost : Rat
  model_used : String
  response_time_ms : Nat
deriving DecidableEq

/-- One row returned by the `match_cache_entries` RPC
(`models/cache.py:CacheSearchResult`). -/
structure CacheSearchResult where
  id : Nat
  query_text : String
  response_text : String
  similarity : Rat
  hit_count : Nat
  model_used : String
deriving DecidableEq

/-- The persistent state touched by the proxy pipeline: the two tables plus
the id the store assigns to the next inserted cache entry. -/
structure Db where
  cache_entries : List CacheEntryRow
  usage_logs : List UsageLogRow
  nextId : Nat
deriving DecidableEq

/-- Filter of `cache_entries` by `query_hash` and `user_id`, the `.eq(...)`
chain in `get_exact_match`. -/
def entriesFor (query_hash user_id : String) (db : Db) : List CacheEntryRow :=
  db.cache_entries.filter
    (fun r => r.query_hash == query_hash && r.user_id == user_id)

/-- `CacheService.get_exact_match`: point lookup by `(query_hash, user_id)`.
`.single()` raises unless exactly one row matches; the handler catches and
returns `None`. -/
def get_exact_match (query_hash user_id : String) (db : Db) :
    Option CacheEntryRow :=
  match entriesFor query_hash user_id db with
  | [r] => some r
  | _ => none

/-- `CacheService.get_semantic_matches`: embeds the query text and asks the
`match_cache_entries` RPC for neighbors.  Any exception — embedding failure or
RPC failure — is caught and yields `[]`; an empty/None RPC result also yields
`[]`. -/
def get_semantic_matches (embedResult : Except Unit String)
    (rpcResult : Except Unit (List CacheSearchResult)) :
    List CacheSearchResult :=
  match embedResult with
  | .error _ => []
  | .ok _ =>
    match rpcResult with
    | .error _ => []
    | .ok rows => rows

/-- `CacheService.store_cache_entry`: computes the embedding, builds the row
with `expires_at = now + 24h`, inserts it.  The handler catches any failure
(embedding or insert), logs it, and re-raises — so failure propagates to the
caller as an error. -/
def store_cache_entry (user_id query_hash query_text response_text model : String)
    (tokens_used : Nat) (cost : Rat)
    (embedResult : Except Unit String) (insertResult : Except Unit Unit)
    (now : Nat) (db : Db) : Except Unit (CacheEntryRow × Db) :=
  match embedResult with
  | .error _ => .error ()
  | .ok emb =>
    match insertResult with
    | .error _ => .error ()
    | .ok _ =>
      let row : CacheEntryRow :=
        { id := db.nextId
          user_id := user_id
          query_hash := query_hash
          query_text := query_text
          query_embedding := emb
          response_text := response_text
          model_used := model
          tokens_saved := tokens_used
          cost_saved := cost
          hit_count := 0
          expires_at := now + 24 * 3600 }
      .ok (row, { db with
                    cache_entries := db.cache_entries ++ [row]
                    nextId := db.nextId + 1 })

/-- `CacheService.update_hit_count`: reads the entry's current `hit_count`
with `.single()` (raising — hence no-op — unless exactly one row has the id),
then writes `hit_count + 1` to every row with that id.  Errors are caught and
swallowed. -/
def update_hit_count (cache_id : Nat) (db : Db) : Db :=
  match db.cache_entries.filter (fun r => r.id == cache_id) with
  | [r] =>
    { db with
        cache_entries := db.cache_entries.map
          (fun e => if e.id == cache_id then { e with hit_count := r.hit_count + 1 } else e) }
  | _ => db

/-- `CacheService.log_usage`: appends one `usage_logs` row; failures are
caught and swallowed (`insertOk = false` models a failed insert). -/
def log_usage (user_id : String) (api_key_id : Option String)
    (cache_hit : Bool) (tokens_used : Nat) (cost : Rat) (model : String)
    (response_time_ms : Nat) (insertOk : Bool) (db : Db) : Db :=
  if insertOk then
    { db with
        usage_logs := db.usage_logs ++
          [{ user_id := user_id, api_key_id := api_key_id,
             cache_hit := cache_hit, tokens_used := tokens_used, cost := cost,
             model_used := model, response_time_ms := response_time_ms }] }
  else db

/-! ## Request pipeline (`app/routers/proxy.py`) -/

/-- Token usage block of an upstream completion
(`llm_service.call_openai` return shape). -/
structure LlmUsage where
  prompt_tokens : Nat
  completion_tokens : Nat
  total_tokens : Nat
deriving DecidableEq

/-- An upstream completion: first choice's message content plus usage. -/
structure LlmResponse where
  content : String
  usage : LlmUsage
deriving DecidableEq

/-- Outcomes of the external collaborator calls one `chat_completions`
request can make, supplied by the environment. -/
structure Collab where
  /-- `embedding_service.generate_embedding(query_text)` inside
  `get_semantic_matches` (the value is stored stringified). -/
  semanticEmbed : Except Unit String
  /-- The `match_cache_entries` RPC result. -/
  semanticRpc : Except Unit (List CacheSearchResult)
  /-- `llm_service.call_openai` outcome. -/
  openai : Except Unit LlmResponse
  /-- `embedding_service.generate_embedding(query_text)` inside
  `store_cache_entry`. -/
  storeEmbed : Except Unit String
  /-- The `cache_entries` insert outcome inside `store_cache_entry`. -/
  storeInsert : Except Unit Unit
  /-- The `usage_logs` insert outcome inside `log_usage` (failures are
  swallowed there). -/
  logInsertOk : Bool

/-- The response body of `chat_completions`
(`models/api.py:ChatCompletionResponse`, first choice's content). -/
structure ChatResponse where
  content : String
  cached : Bool
  cache_type : Option String
  similarity : Option Rat
  usage : Option LlmUsage
deriving DecidableEq

/-- Python's `s.startswith(pre)`. -/
def pyStartsWith (s pre : String) : Bool :=
  pre.data.isPrefixOf s.data

/-- `cost_per_token = 0.002 / 1000` (proxy.py line 121), as an exact
rational. -/
def cost_per_token : Rat := 2 / 1000 / 1000

/-- `proxy.chat_completions`: exact lookup, then semantic lookup, then
upstream call + store + log on miss.  An `Except.error s` result is the
`HTTPException` with status `s` the route raises (unhandled exceptions map to
500 via the final handler). -/
def chat_completions (sha256hex : String → String) (c : Collab)
    (now response_time_ms : Nat)
    (messages : List Msg) (model : String) (user_id : String) (db : Db) :
    Except Nat ChatResponse × Db :=
  let query_hash := generate_query_hash sha256hex messages model
  let query_text := dumpsMessagesRaw messages
  match get_exact_match query_hash user_id db with
  | some entry =>
    let db1 := update_hit_count entry.id db
    let db2 := log_usage user_id none true 0 0 model response_time_ms c.logInsertOk db1
    (.ok { content := entry.response_text, cached := true,
           cache_type := some "exact", similarity := none, usage := none }, db2)
  | none =>
    match get_semantic_matches c.semanticEmbed c.semanticRpc with
    | best_match :: _ =>
      let db1 := update_hit_count best_match.id db
      let db2 := log_usage user_id none true 0 0 model response_time_ms c.logInsertOk db1
      (.ok { content := best_match.response_text, cached := true,
             cache_type := some "semantic", similarity := some best_match.similarity,
             usage := none }, db2)
    | [] =>
      let llmResult : Except Nat LlmResponse :=
        if pyStartsWith model "gpt" then
          match c.openai with
          | .ok r => .ok r
          | .error _ => .error 500
        else if pyStartsWith model "claude" then
          .error 500
        else
          .error 400
      match llmResult with
      | .error s => (.error s, db)
      | .ok llm =>
        let tokens_used := llm.usage.total_tokens
        let cost := (tokens_used : Rat) * cost_per_token
        match store_cache_entry user_id query_hash query_text llm.content model
            tokens_used cost c.storeEmbed c.storeInsert now db with
        | .error _ => (.error 500, db)
        | .ok (_, db1) =>
          let db2 := log_usage user_id none false tokens_used cost model
            response_time_ms c.logInsertOk db1
          (.ok { content := llm.content, cached := false, cache_type := none,
                 similarity := none, usage := some llm.usage }, db2)

/-- The body of `proxy.get_cache_stats`. -/
structure CacheStats where
  total_requests : Nat
  cache_hits : Nat
  cache_hit_rate : Rat
  total_cost_saved : Rat
  total_tokens_saved : Nat
deriving DecidableEq

/-- `proxy.get_cache_stats`: aggregates the owner's `usage_logs` rows.  The
hit rate falls back to `0` when there are no logs. -/
def get_cache_stats (user_id : String) (db : Db) : CacheStats :=
  let logs := db.usage_logs.filter (fun l => l.user_id == user_id)
  let total_requests := logs.length
  let cache_hits := (logs.filter (fun l => l.cache_hit)).length
  { total_requests := total_requests
    cache_hits := cache_hits
    cache_hit_rate :=
      if total_requests > 0 then (cache_hits : Rat) / (total_requests : Rat) else 0
    total_cost_saved := ((logs.filter (fun l => l.cache_hit)).map (fun l => l.cost)).sum
    total_tokens_saved := ((logs.filter (fun l => l.cache_hit)).map (fun l => l.tokens_used)).sum }

/-! ## Admission: quota (`subscription_service.py`, `feature_gates.py`) -/

/-- The dict returned by `SubscriptionService.check_usage_limits`. -/
structure UsageStatus where
  within_limits : Bool
  current_usage : Nat
  monthly_limit : Option Nat
  overage : Nat
  plan_name : String
deriving DecidableEq

/-- `SubscriptionService.check_usage_limits`: reads the subscription's plan
(`monthly_requests`, nullable = unlimited) and the owner's current-month
usage row.  `readFail` models any exception while reading (the handler then
returns the permissive fallback dict).  `usageRow` is the `requests_used`
value of the month's row when present (`else 0` in the source).
`overage` mirrors `max(0, current_usage - (monthly_limit or 0)) if
monthly_limit else 0`, including Python's falsy treatment of a `0` limit. -/
def check_usage_limits (readFail : Bool) (plan_name : String)
    (monthly_requests : Option Nat) (usageRow : Option Nat) : UsageStatus :=
  if readFail then
    { within_limits := true, current_usage := 0, monthly_limit := some 1000,
      overage := 0, plan_name := "free" }
  else
    let current_usage := usageRow.getD 0
    { within_limits :=
        match monthly_requests with
        | none => true
        | some q => decide (current_usage < q)
      current_usage := current_usage
      monthly_limit := monthly_requests
      overage :=
        match monthly_requests with
        | none => 0
        | some 0 => 0
        | some q => current_usage - q
      plan_name := plan_name }

/-- Result of the `feature_gates.check_usage_limit` gate: either the
`HTTPException` it raises or the dict it returns. -/
inductive QuotaGateResult where
  | denied (status : Nat) (current_usage : Nat) (limit : Option Nat)
  | allowed (overage : Bool) (overage_amount : Nat)
deriving DecidableEq

/-- `feature_gates.check_usage_limit`: over-quota requests are denied with a
429 only on the free plan; paid tiers are allowed with the overage flagged. -/
def check_usage_limit (us : UsageStatus) : QuotaGateResult :=
  if us.within_limits then .allowed false 0
  else if us.plan_name == "free" then .denied 429 us.current_usage us.monthly_limit
  else .allowed true us.overage

/-! ## Admission: feature flags (`SubscriptionService.has_feature`,
`FeatureGateMiddleware`) -/

/-- The plan dict fields `has_feature` reads (each via `.get(key, False)`,
hence the `false` defaults) plus its JSON `features` object (values checked
with `is not False`). -/
structure PlanFlags where
  similarity_threshold_custom : Bool := false
  advanced_analytics : Bool := false
  priority_support : Bool := false
  sso_integration : Bool := false
  white_label : Bool := false
  ab_testing : Bool := false
  webhooks : Bool := false
  features : List (String × Bool) := []
deriving DecidableEq

/-- `SubscriptionService.has_feature`: built-in flags first, then the plan's
JSON `features`, then the per-user `user_features` row.  `userFeatureRead` is
that last table read; if it raises, the handler returns `False`. -/
def has_feature (plan : PlanFlags) (feature_name : String)
    (userFeatureRead : Except Unit (Option Bool)) : Bool :=
  if feature_name == "custom_similarity" then plan.similarity_threshold_custom
  else if feature_name == "advanced_analytics" then plan.advanced_analytics
  else if feature_name == "priority_support" then plan.priority_support
  else if feature_name == "sso" then plan.sso_integration
  else if feature_name == "white_label" then plan.white_label
  else if feature_name == "ab_testing" then plan.ab_testing
  else if feature_name == "webhooks" then plan.webhooks
  else
    match plan.features.lookup feature_name with
    | some v => v != false
    | none =>
      match userFeatureRead with
      | .error _ => false
      | .ok (some enabled) => enabled
      | .ok none => false

/-- `FeatureGateMiddleware.feature_requirements`. -/
def feature_requirements : List (String × String) :=
  [("/api/analytics/advanced", "advanced_analytics"),
   ("/api/models/custom", "custom_models"),
   ("/api/teams", "team_collaboration"),
   ("/api/cache/advanced", "advanced_caching")]

/-- Outcome of a gating middleware: pass the request on, or answer with an
error status. -/
inductive GateDecision where
  | proceed
  | deny (status : Nat)
deriving DecidableEq

/-- The `path.startswith(pattern)` scan in `FeatureGateMiddleware.dispatch`. -/
def requiredFeatureFor (path : String) : Option String :=
  (feature_requirements.find? (fun pr => pyStartsWith path pr.1)).map (fun pr => pr.2)

/-- `FeatureGateMiddleware.dispatch` for an authenticated request: 403 when
`has_feature` is false for the path's required feature. -/
def featureGateDispatch (path : String) (user_id : Option String)
    (plan : PlanFlags) (userFeatureRead : Except Unit (Option Bool)) :
    GateDecision :=
  match requiredFeatureFor path with
  | none => .proceed
  | some f =>
    match user_id with
    | none => .deny 401
    | some _ =>
      if has_feature plan f userFeatureRead then .proceed else .deny 403

/-! ## Admission: rate limit (`RateLimitMiddleware`) -/

/-- `RateLimitMiddleware.rate_limits` with the `.get(plan_name, 10)`
default. -/
def rate_limits (plan_name : String) : Int :=
  if plan_name == "free" then 10
  else if plan_name == "startup" then 100
  else if plan_name == "business" then 500
  else if plan_name == "enterprise" then -1
  else 10

/-- The in-memory `request_counts` dict, keyed `(user_id, minute-bucket)`. -/
abbrev RateCounts := List ((String × Nat) × Nat)

/-- `request_counts.get(key, 0)`. -/
def countsLookup (key : String × Nat) (counts : RateCounts) : Nat :=
  (counts.lookup key).getD 0

/-- Dict assignment `request_counts[key] = v`. -/
def countsInsert (key : String × Nat) (v : Nat) (counts : RateCounts) :
    RateCounts :=
  if counts.any (fun kv => kv.1 == key) then
    counts.map (fun kv => if kv.1 == key then (key, v) else kv)
  else counts ++ [(key, v)]

/-- The slice of `get_subscription_details`'s result the rate limiter reads
(`details.plan.name`). -/
structure SubscriptionDetails where
  plan_name : String
deriving DecidableEq

/-- The methods `SubscriptionService` actually defines
(`app/services/subscription_service.py`). -/
def subscriptionServiceMethods : List String :=
  ["get_user_subscription", "assign_free_plan", "check_usage_limits",
   "increment_usage", "can_create_api_key", "has_feature", "upgrade_plan",
   "get_usage_history"]

/-- The call `subscription_service.get_subscription_details(user_id)` made by
`RateLimitMiddleware._check_rate_limit`: `SubscriptionService` defines no such
method, so the attribute lookup raises `AttributeError` before any I/O. -/
def get_subscription_details_call : Except Unit (Option SubscriptionDetails) :=
  if subscriptionServiceMethods.contains "get_subscription_details" then
    .ok none
  else
    .error ()

/-- `RateLimitMiddleware._check_rate_limit`: any exception (including the
failed subscription-details read) is caught and the request is allowed;
otherwise the per-minute bucket counter is consulted, incremented on
admission, and buckets older than the previous minute are pruned. -/
def check_rate_limit (detailsRead : Except Unit (Option SubscriptionDetails))
    (user_id : String) (current_minute : Nat) (counts : RateCounts) :
    Bool × RateCounts :=
  match detailsRead with
  | .error _ => (true, counts)
  | .ok none => (true, counts)
  | .ok (some details) =>
    let rate_limit := rate_limits details.plan_name
    if rate_limit == -1 then (true, counts)
    else
      let key := (user_id, current_minute)
      let current_count := countsLookup key counts
      if rate_limit ≤ (current_count : Int) then (false, counts)
      else
        let counts1 := countsInsert key (current_count + 1) counts
        let counts2 := counts1.filter (fun kv => decide (current_minute ≤ kv.1.2 + 1))
        (true, counts2)

/-- `_check_rate_limit` as it runs in this repository: the
subscription-details read always raises (the method does not exist). -/
def check_rate_limit_actual (user_id : String) (current_minute : Nat)
    (counts : RateCounts) : Bool × RateCounts :=
  check_rate_limit get_subscription_details_call user_id current_minute counts

/-- Outcome of `RateLimitMiddleware.dispatch` for an identified user:
forwarded, or answered `429` with the `Retry-After` header value. -/
inductive RateDispatch where
  | forwarded
  | denied429 (retry_after : Nat)
deriving DecidableEq

/-- `RateLimitMiddleware.dispatch`: unidentified users pass through; otherwise
a failed `_check_rate_limit` yields the 429 with `Retry-After: 60`. -/
def rate_limit_dispatch (detailsRead : Except Unit (Option SubscriptionDetails))
    (user_id : Option String) (current_minute : Nat) (counts : RateCounts) :
    RateDispatch × RateCounts :=
  match user_id with
  | none => (.forwarded, counts)
  | some u =>
    match check_rate_limit detailsRead u current_minute counts with
    | (true, c2) => (.forwarded, c2)
    | (false, c2) => (.denied429 60, c2)

/-! ## Monthly usage accounting (`SubscriptionService.increment_usage`,
`UsageTrackingMiddleware._track_usage`) -/

/-- A row of the `monthly_usage` table (fields per
`models/subscription.py:MonthlyUsage`; the savings columns default to 0). -/
structure MonthlyUsageRow where
  id : Nat
  user_id : String
  month_year : String
  requests_used : Nat
  cache_hits : Nat
  cache_misses : Nat
  tokens_saved : Nat
  cost_saved : Rat
deriving DecidableEq

/-- `SubscriptionService.increment_usage` body.  `existing` is the
`.single()` read of the owner's current-month row: `.error` = the read raised
(the handler swallows and nothing is written), `.ok (some r)` = one row
(update), `.ok none` = empty data (insert branch; the inserted dict carries no
savings fields, so those columns stay at their defaults).  Note: neither
branch ever writes `tokens_saved` or `cost_saved`. -/
def increment_usage (user_id : String) (requests_count : Nat)
    (cache_hit : Bool) (month_year : String)
    (existing : Except Unit (Option MonthlyUsageRow))
    (rows : List MonthlyUsageRow) (nextId : Nat) : List MonthlyUsageRow :=
  match existing with
  | .error _ => rows
  | .ok (some r) =>
    rows.map (fun x =>
      if x.id == r.id then
        { x with
            requests_used := r.requests_used + requests_count
            cache_hits := if cache_hit then r.cache_hits + 1 else x.cache_hits
            cache_misses := if cache_hit then x.cache_misses else r.cache_misses + 1 }
      else x)
  | .ok none =>
    rows ++ [{ id := nextId, user_id := user_id, month_year := month_year,
               requests_used := requests_count,
               cache_hits := if cache_hit then 1 else 0,
               cache_misses := if cache_hit then 0 else 1,
               tokens_saved := 0, cost_saved := 0 }]

/-- The parameter names of `SubscriptionService.increment_usage`
(`self` aside). -/
def increment_usage_params : List String :=
  ["user_id", "requests_count", "cache_hit"]

/-- Keyword names `_track_usage` passes on a cache hit. -/
def track_usage_hit_kwargs : List String :=
  ["user_id", "is_cache_hit", "tokens_saved", "cost_saved"]

/-- Keyword names `_track_usage` passes on a cache miss. -/
def track_usage_miss_kwargs : List String :=
  ["user_id", "is_cache_hit"]

/-- Python keyword-call semantics: a keyword argument that matches no
parameter of the callee raises `TypeError` before the body runs. -/
def callIncrementUsageKwargs (kwargs : List String)
    (run : List MonthlyUsageRow → List MonthlyUsageRow)
    (rows : List MonthlyUsageRow) : Except Unit (List MonthlyUsageRow) :=
  if kwargs.all (fun k => increment_usage_params.contains k) then .ok (run rows)
  else .error ()

/-- The monthly-counter step of `UsageTrackingMiddleware._track_usage`: it
invokes `increment_usage` with the keyword sets above and swallows any
exception. -/
def track_usage_monthly (is_cache_hit : Bool)
    (run : List MonthlyUsageRow → List MonthlyUsageRow)
    (rows : List MonthlyUsageRow) : List MonthlyUsageRow :=
  match callIncrementUsageKwargs
      (if is_cache_hit then track_usage_hit_kwargs else track_usage_miss_kwargs)
      run rows with
  | .ok r => r
  | .error _ => rows

/-! ## Auxiliary observation functions used by the theorems -/

/-- The `hit_count` of the unique cache entry with the given id, if any. -/
def hitCountOf (db : Db) (i : Nat) : Option Nat :=
  match db.cache_entries.filter (fun r => r.id == i) with
  | [r] => some r.hit_count
  | _ => none

/-- Run `n` consecutive `_check_rate_limit` calls (as the repository executes
them) for one user in one minute bucket, threading the counter table, and
collect the admit/deny answers. -/
def iterateChecks (user : String) (minute : Nat) : Nat → RateCounts → List Bool
  | 0, _ => []
  | n + 1, counts =>
    let next := check_rate_limit_actual user minute counts
    next.1 :: iterateChecks user minute n next.2

/-- Every logged cache-hit row carries zero tokens and zero cost. -/
def hitLogsZero (logs : List UsageLogRow) : Prop :=
  ∀ r ∈ logs, r.cache_hit = true → r.tokens_used = 0 ∧ r.cost = 0

/-- The empty database. -/
def emptyDb : Db := { cache_entries := [], usage_logs := [], nextId := 0 }

/-!
# Theorems
-/

/-! ## Canonicalization lemmas for `generate_query_hash` -/

theorem sorted_keyLT_of_sorted_nodup {l : Msg}
    (hs : List.Sorted keyLE l) (hn : (l.map Prod.fst).Nodup) :
    List.Sorted keyLT l := by
  have hn' : List.Pairwise (fun p q : String × String => p.1 ≠ q.1) l :=
    (List.pairwise_map).1 hn
  exact (hs.and hn').imp (fun h hle => h.2 (strLe_antisymm h.1 hle))

theorem sortPairs_eq_of_sameDict {m1 m2 : Msg} (h : sameDict m1 m2) :
    sortPairs m1 = sortPairs m2 := by
  obtain ⟨hperm, hnodup⟩ := h
  have p1 : (sortPairs m1).Perm m1 := List.perm_insertionSort keyLE m1
  have p2 : (sortPairs m2).Perm m2 := List.perm_insertionSort keyLE m2
  have hp : (sortPairs m1).Perm (sortPairs m2) :=
    (p1.trans hperm).trans p2.symm
  have hs1 : List.Sorted keyLE (sortPairs m1) := List.sorted_insertionSort keyLE m1
  have hs2 : List.Sorted keyLE (sortPairs m2) := List.sorted_insertionSort keyLE m2
  have hn1 : ((sortPairs m1).map Prod.fst).Nodup :=
    (hnodup.perm (p1.map Prod.fst).symm)
  have hn2 : ((sortPairs m2).map Prod.fst).Nodup :=
    hn1.perm (hp.map Prod.fst)
  exact List.eq_of_perm_of_sorted hp
    (sorted_keyLT_of_sorted_nodup hs1 hn1)
    (sorted_keyLT_of_sorted_nodup hs2 hn2)

theorem dumpsMsg_eq_of_sameDict {m1 m2 : Msg} (h : sameDict m1 m2) :
    dumpsMsg m1 = dumpsMsg m2 := by
  unfold dumpsMsg
  rw [sortPairs_eq_of_sameDict h]

theorem dumpsMessages_eq_of_forall₂ {m1 m2 : List Msg}
    (h : List.Forall₂ sameDict m1 m2) :
    dumpsMessages m1 = dumpsMessages m2 := by
  have hmap : m1.map dumpsMsg = m2.map dumpsMsg := by
    induction h with
    | nil => rfl
    | cons hd _ ih => simp only [List.map_cons, dumpsMsg_eq_of_sameDict hd, ih]
  unfold dumpsMessages
  rw [hmap]

/-! ## C7 -/

/-- C7: `generate_query_hash` is deterministic and canonicalizing.  Two
requests whose message lists agree elementwise up to reordering of the keys
inside each message object, with the same model string, produce the same
SHA-256 key (for any hash primitive, hence for the real one); and the
canonical serialization preserves message order, so permuting the message
list can change the key, witnessed by a concrete two-message swap. -/
theorem C7_computeKey_canonical :
    (∀ (sha256hex : String → String) (m1 m2 : List Msg) (model : String),
        List.Forall₂ sameDict m1 m2 →
        generate_query_hash sha256hex m1 model =
          generate_query_hash sha256hex m2 model) ∧
    canonicalRequestString
        [[("role", "user"), ("content", "a")], [("role", "user"), ("content", "b")]]
        "gpt-3.5-turbo" ≠
      canonicalRequestString
        [[("role", "user"), ("content", "b")], [("role", "user"), ("content", "a")]]
        "gpt-3.5-turbo" := by
  constructor
  · intro sha256hex m1 m2 model h
    unfold generate_query_hash canonicalRequestString
    rw [dumpsMessages_eq_of_forall₂ h]
  · decide

/-- C7 witness: the canonicalization theorem applied to a concrete message
whose two keys are given in the two possible orders. -/
theorem C7_witness :
    List.Forall₂ sameDict [[("role", "user"), ("content", "hi")]]
      [[("content", "hi"), ("role", "user")]] ∧
    generate_query_hash (fun s => s) [[("role", "user"), ("content", "hi")]] "m" =
      generate_query_hash (fun s => s) [[("content", "hi"), ("role", "user")]] "m" := by
  have h : List.Forall₂ sameDict [[("role", "user"), ("content", "hi")]]
      [[("content", "hi"), ("role", "user")]] :=
    .cons ⟨List.Perm.swap _ _ _, by decide⟩ .nil
  exact ⟨h, C7_computeKey_canonical.1 (fun s => s) _ _ "m" h⟩

/-! ## C6 -/

/-- C6: round-trip.  If no cache row for `(query_hash, user_id)` exists yet,
a successful `store_cache_entry` followed immediately by `get_exact_match`
on the same key returns exactly the stored row, whose `response_text` and
`model_used` are the stored response and model. -/
theorem C6_store_roundtrip
    (user_id query_hash query_text response_text model : String)
    (tokens_used : Nat) (cost : Rat) (emb : String) (now : Nat)
    (db : Db) (row : CacheEntryRow) (db' : Db)
    (hpre : entriesFor query_hash user_id db = [])
    (hstore : store_cache_entry user_id query_hash query_text response_text model
        tokens_used cost (.ok emb) (.ok ()) now db = .ok (row, db')) :
    get_exact_match query_hash user_id db' = some row ∧
    row.response_text = response_text ∧ row.model_used = model := by
  unfold store_cache_entry at hstore
  simp only [Except.ok.injEq, Prod.mk.injEq] at hstore
  obtain ⟨hrow, hdb⟩ := hstore
  have hfil : entriesFor query_hash user_id db' = [row] := by
    unfold entriesFor at hpre ⊢
    rw [← hdb, ← hrow]
    simp [List.filter_append, hpre]
  refine ⟨?_, by rw [← hrow], by rw [← hrow]⟩
  unfold get_exact_match
  rw [hfil]

/-- C6 witness: the round-trip theorem applied to a concrete store into the
empty database. -/
theorem C6_witness :
    entriesFor "h" "u" emptyDb = [] ∧
    ∃ row db',
      store_cache_entry "u" "h" "q" "resp" "gpt-3.5-turbo" 3 (1 / 2)
          (.ok "e") (.ok ()) 0 emptyDb = .ok (row, db') ∧
      get_exact_match "h" "u" db' = some row ∧
      row.response_text = "resp" ∧ row.model_used = "gpt-3.5-turbo" := by
  refine ⟨rfl, _, _, rfl, ?_⟩
  exact C6_store_roundtrip "u" "h" "q" "resp" "gpt-3.5-turbo" 3 (1 / 2) "e" 0
    emptyDb _ _ rfl rfl

/-! ## C3 -/

theorem store_cache_entry_error
    (user_id query_hash query_text response_text model : String)
    (tokens_used : Nat) (cost : Rat)
    (e : Except Unit String) (i : Except Unit Unit) (now : Nat) (db : Db)
    (h : e = .error () ∨ i = .error ()) :
    store_cache_entry user_id query_hash query_text response_text model
      tokens_used cost e i now db = .error () := by
  rcases h with h | h
  · subst h; rfl
  · subst h; cases e <;> rfl

/-- C3 counterexample: a concrete request that misses the cache, gets a
successful upstream completion, and then fails to store it (embedding
failure during `store_cache_entry`).  The route answers HTTP 500 instead of
returning the already-computed upstream response — the claim's "still
returns the upstream response" is false on this input. -/
theorem C3_counterexample :
    chat_completions (fun s => s)
      { semanticEmbed := .ok "e", semanticRpc := .ok [],
        openai := .ok { content := "hello", usage := ⟨1, 2, 3⟩ },
        storeEmbed := .error (), storeInsert := .ok (), logInsertOk := true }
      0 0 [[("role", "user"), ("content", "hi")]] "gpt-3.5-turbo" "u" emptyDb =
    (.error 500, emptyDb) := by
  rfl

/-- C3 amended: if the request misses the cache, the upstream call succeeds,
and then `store_cache_entry` fails (embedding failure or insert failure), the
store failure propagates: `chat_completions` raises HTTP 500, the upstream
response is not returned, and the database is left unchanged. -/
theorem C3_store_failure_propagates
    (sha256hex : String → String) (c : Collab) (now rt : Nat)
    (messages : List Msg) (model user_id : String) (db : Db)
    (hexact : get_exact_match (generate_query_hash sha256hex messages model)
        user_id db = none)
    (hsem : get_semantic_matches c.semanticEmbed c.semanticRpc = [])
    (hgpt : pyStartsWith model "gpt" = true)
    (resp : LlmResponse) (hllm : c.openai = .ok resp)
    (hfail : c.storeEmbed = .error () ∨ c.storeInsert = .error ()) :
    chat_completions sha256hex c now rt messages model user_id db =
      (.error 500, db) := by
  have hstore := store_cache_entry_error user_id
    (generate_query_hash sha256hex messages model) (dumpsMessagesRaw messages)
    resp.content model resp.usage.total_tokens
    ((resp.usage.total_tokens : Rat) * cost_per_token)
    c.storeEmbed c.storeInsert now db hfail
  simp only [chat_completions, hexact, hsem, hgpt, hllm, hstore, if_true]

/-- C3 witness for the amended theorem: a concrete failing-insert run. -/
theorem C3_witness :
    chat_completions (fun s => s)
      { semanticEmbed := .ok "e", semanticRpc := .ok [],
        openai := .ok { content := "hello", usage := ⟨1, 2, 3⟩ },
        storeEmbed := .ok "e", storeInsert := .error (), logInsertOk := true }
      0 0 [[("role", "user"), ("content", "hi")]] "gpt-3.5-turbo" "u" emptyDb =
    (.error 500, emptyDb) :=
  C3_store_failure_propagates (fun s => s) _ 0 0 _ "gpt-3.5-turbo" "u" emptyDb
    rfl rfl rfl { content := "hello", usage := ⟨1, 2, 3⟩ } rfl (Or.inr rfl)

/-! ## Shared pipeline lemmas -/

theorem log_usage_cache_entries (user_id : String) (api_key_id : Option String)
    (cache_hit : Bool) (tokens_used : Nat) (cost : Rat) (model : String)
    (rt : Nat) (insertOk : Bool) (db : Db) :
    (log_usage user_id api_key_id cache_hit tokens_used cost model rt
      insertOk db).cache_entries = db.cache_entries := by
  unfold log_usage
  split <;> rfl

/-- A cache-missing request with a successful upstream call and a successful
store: the full run of `chat_completions`, spelled out. -/
theorem chat_completions_miss_run
    (sha256hex : String → String) (c : Collab) (now rt : Nat)
    (messages : List Msg) (model user_id : String) (db : Db)
    (hexact : get_exact_match (generate_query_hash sha256hex messages model)
        user_id db = none)
    (hsem : get_semantic_matches c.semanticEmbed c.semanticRpc = [])
    (hgpt : pyStartsWith model "gpt" = true)
    (resp : LlmResponse) (hllm : c.openai = .ok resp)
    (emb : String) (hse : c.storeEmbed = .ok emb) (hsi : c.storeInsert = .ok ()) :
    chat_completions sha256hex c now rt messages model user_id db =
      (.ok { content := resp.content, cached := false, cache_type := none,
             similarity := none, usage := some resp.usage },
       log_usage user_id none false resp.usage.total_tokens
         ((resp.usage.total_tokens : Rat) * cost_per_token) model rt c.logInsertOk
         { db with
             cache_entries := db.cache_entries ++
               [{ id := db.nextId, user_id := user_id,
                  query_hash := generate_query_hash sha256hex messages model,
                  query_text := dumpsMessagesRaw messages,
                  query_embedding := emb, response_text := resp.content,
                  model_used := model, tokens_saved := resp.usage.total_tokens,
                  cost_saved := (resp.usage.total_tokens : Rat) * cost_per_token,
                  hit_count := 0, expires_at := now + 24 * 3600 }]
             nextId := db.nextId + 1 }) := by
  simp only [chat_completions, hexact, hsem, hgpt, hllm, hse, hsi, if_true,
    store_cache_entry]

/-- A request whose exact lookup hits: the full run of `chat_completions`. -/
theorem chat_completions_hit_run
    (sha256hex : String → String) (c : Collab) (now rt : Nat)
    (messages : List Msg) (model user_id : String) (db : Db)
    (e : CacheEntryRow)
    (hexact : get_exact_match (generate_query_hash sha256hex messages model)
        user_id db = some e) :
    chat_completions sha256hex c now rt messages model user_id db =
      (.ok { content := e.response_text, cached := true,
             cache_type := some "exact", similarity := none, usage := none },
       log_usage user_id none true 0 0 model rt c.logInsertOk
         (update_hit_count e.id db)) := by
  simp only [chat_completions, hexact]

theorem hitCountOf_log_usage (user_id : String) (api_key_id : Option String)
    (cache_hit : Bool) (tokens_used : Nat) (cost : Rat) (model : String)
    (rt : Nat) (insertOk : Bool) (db : Db) (i : Nat) :
    hitCountOf (log_usage user_id api_key_id cache_hit tokens_used cost model
      rt insertOk db) i = hitCountOf db i := by
  unfold hitCountOf
  rw [log_usage_cache_entries]

theorem update_hit_count_filter (db : Db) (i : Nat) (r : CacheEntryRow)
    (h : db.cache_entries.filter (fun e => e.id == i) = [r]) :
    (update_hit_count i db).cache_entries.filter (fun e => e.id == i) =
      [{ r with hit_count := r.hit_count + 1 }] := by
  have hrmem : r ∈ db.cache_entries.filter (fun e => e.id == i) := by
    rw [h]; exact List.mem_singleton_self r
  have hrid : (r.id == i) = true := (List.mem_filter.1 hrmem).2
  unfold update_hit_count
  rw [h]
  have hcomp :
      ((fun e : CacheEntryRow => e.id == i) ∘
        (fun e : CacheEntryRow =>
          if e.id == i then { e with hit_count := r.hit_count + 1 } else e)) =
      (fun e : CacheEntryRow => e.id == i) := by
    funext e
    by_cases he : e.id = i
    · simp [he]
    · simp [he]
  rw [List.filter_map, hcomp, h]
  have hrid' : r.id = i := by simpa using hrid
  simp [hrid']

theorem hitCountOf_of_filter (db : Db) (i : Nat) (r : CacheEntryRow)
    (h : db.cache_entries.filter (fun e => e.id == i) = [r]) :
    hitCountOf db i = some r.hit_count := by
  unfold hitCountOf
  rw [h]

/-! ## C1 -/

/-- C1: after a request `(messages, model)` from `user_id` has been served
and cached (a miss with successful upstream call and store), an immediately
following identical request hits the exact cache: it returns the cached
response with `cached = true` and `cache_type = "exact"`, and the matched
entry's `hit_count` after the second request is exactly one greater than it
was before it.  `hfresh` says the store's fresh row id is unused and `hpre`
that no entry for this `(hash, owner)` existed before. -/
theorem C1_second_identical_request_exact_hit
    (sha256hex : String → String) (c1 c2 : Collab) (now1 now2 rt1 rt2 : Nat)
    (messages : List Msg) (model user_id : String) (db0 : Db)
    (hfresh : ∀ r ∈ db0.cache_entries, r.id ≠ db0.nextId)
    (hpre : entriesFor (generate_query_hash sha256hex messages model) user_id
        db0 = [])
    (hsem : get_semantic_matches c1.semanticEmbed c1.semanticRpc = [])
    (hgpt : pyStartsWith model "gpt" = true)
    (resp : LlmResponse) (hllm : c1.openai = .ok resp)
    (emb : String) (hse : c1.storeEmbed = .ok emb) (hsi : c1.storeInsert = .ok ()) :
    ∃ e,
      get_exact_match (generate_query_hash sha256hex messages model) user_id
        (chat_completions sha256hex c1 now1 rt1 messages model user_id db0).2 =
        some e ∧
      (chat_completions sha256hex c2 now2 rt2 messages model user_id
        (chat_completions sha256hex c1 now1 rt1 messages model user_id db0).2).1 =
        .ok { content := e.response_text, cached := true,
              cache_type := some "exact", similarity := none, usage := none } ∧
      hitCountOf
        (chat_completions sha256hex c2 now2 rt2 messages model user_id
          (chat_completions sha256hex c1 now1 rt1 messages model user_id db0).2).2
        e.id = some (e.hit_count + 1) := by
  have hexact0 : get_exact_match (generate_query_hash sha256hex messages model)
      user_id db0 = none := by
    unfold get_exact_match
    rw [hpre]
  have h1 := chat_completions_miss_run sha256hex c1 now1 rt1 messages model
    user_id db0 hexact0 hsem hgpt resp hllm emb hse hsi
  rw [h1]
  set row : CacheEntryRow :=
    { id := db0.nextId, user_id := user_id,
      query_hash := generate_query_hash sha256hex messages model,
      query_text := dumpsMessagesRaw messages,
      query_embedding := emb, response_text := resp.content,
      model_used := model, tokens_saved := resp.usage.total_tokens,
      cost_saved := (resp.usage.total_tokens : Rat) * cost_per_token,
      hit_count := 0, expires_at := now1 + 24 * 3600 } with hrow
  set db1 : Db :=
    log_usage user_id none false resp.usage.total_tokens
      ((resp.usage.total_tokens : Rat) * cost_per_token) model rt1 c1.logInsertOk
      { db0 with cache_entries := db0.cache_entries ++ [row]
                 nextId := db0.nextId + 1 } with hdb1
  have hdb1entries : db1.cache_entries = db0.cache_entries ++ [row] := by
    rw [hdb1, log_usage_cache_entries]
  have hrowhash : (row.query_hash == generate_query_hash sha256hex messages model) = true := by
    rw [hrow]; exact beq_self_eq_true _
  have hfilter0 : db0.cache_entries.filter (fun e => e.id == db0.nextId) = [] := by
    rw [List.filter_eq_nil_iff]
    intro a ha
    simpa using hfresh a ha
  have hexact1 : get_exact_match (generate_query_hash sha256hex messages model)
      user_id db1 = some row := by
    unfold entriesFor at hpre
    unfold get_exact_match entriesFor
    rw [hdb1entries, List.filter_append, hpre]
    simp [hrow]
  have h2 := chat_completions_hit_run sha256hex c2 now2 rt2 messages model
    user_id db1 row hexact1
  rw [h2]
  refine ⟨row, hexact1, rfl, ?_⟩
  have hfilter1 : db1.cache_entries.filter (fun e => e.id == row.id) = [row] := by
    rw [hdb1entries, List.filter_append]
    have : row.id = db0.nextId := by rw [hrow]
    rw [this, hfilter0]
    simp
  have hupd := update_hit_count_filter db1 row.id row hfilter1
  rw [hitCountOf_log_usage, hitCountOf_of_filter (update_hit_count row.id db1)
    row.id { row with hit_count := row.hit_count + 1 } hupd]

/-- C1 witness: the two-request scenario run concretely from the empty
database. -/
theorem C1_witness :
    ∃ e,
      get_exact_match
        (generate_query_hash (fun s => s)
          [[("role", "user"), ("content", "hi")]] "gpt-3.5-turbo") "u"
        (chat_completions (fun s => s)
          { semanticEmbed := .ok "e", semanticRpc := .ok [],
            openai := .ok { content := "hello", usage := ⟨1, 2, 3⟩ },
            storeEmbed := .ok "e", storeInsert := .ok (), logInsertOk := true }
          0 0 [[("role", "user"), ("content", "hi")]] "gpt-3.5-turbo" "u"
          emptyDb).2 = some e ∧
      (chat_completions (fun s => s)
        { semanticEmbed := .ok "e", semanticRpc := .ok [],
          openai := .ok { content := "hello", usage := ⟨1, 2, 3⟩ },
          storeEmbed := .ok "e", storeInsert := .ok (), logInsertOk := true }
        0 0 [[("role", "user"), ("content", "hi")]] "gpt-3.5-turbo" "u"
        (chat_completions (fun s => s)
          { semanticEmbed := .ok "e", semanticRpc := .ok [],
            openai := .ok { content := "hello", usage := ⟨1, 2, 3⟩ },
            storeEmbed := .ok "e", storeInsert := .ok (), logInsertOk := true }
          0 0 [[("role", "user"), ("content", "hi")]] "gpt-3.5-turbo" "u"
          emptyDb).2).1 =
        .ok { content := e.response_text, cached := true,
              cache_type := some "exact", similarity := none, usage := none } ∧
      hitCountOf
        (chat_completions (fun s => s)
          { semanticEmbed := .ok "e", semanticRpc := .ok [],
            openai := .ok { content := "hello", usage := ⟨1, 2, 3⟩ },
            storeEmbed := .ok "e", storeInsert := .ok (), logInsertOk := true }
          0 0 [[("role", "user"), ("content", "hi")]] "gpt-3.5-turbo" "u"
          (chat_completions (fun s => s)
            { semanticEmbed := .ok "e", semanticRpc := .ok [],
              openai := .ok { content := "hello", usage := ⟨1, 2, 3⟩ },
              storeEmbed := .ok "e", storeInsert := .ok (), logInsertOk := true }
            0 0 [[("role", "user"), ("content", "hi")]] "gpt-3.5-turbo" "u"
            emptyDb).2).2 e.id = some (e.hit_count + 1) :=
  C1_second_identical_request_exact_hit (fun s => s) _ _ 0 0 0 0
    [[("role", "user"), ("content", "hi")]] "gpt-3.5-turbo" "u" emptyDb
    (fun r hr => absurd hr (List.not_mem_nil r)) rfl rfl rfl
    { content := "hello", usage := ⟨1, 2, 3⟩ } rfl "e" rfl rfl

/-! ## C8 -/

/-- C8: if embedding generation fails during semantic lookup,
`get_semantic_matches` returns the empty list instead of propagating the
error, and the request proceeds as an exact-only miss: with a successful
upstream call and store, it completes with the (non-cached) upstream
response rather than failing. -/
theorem C8_embedding_failure_no_match
    (sha256hex : String → String) (c : Collab) (now rt : Nat)
    (messages : List Msg) (model user_id : String) (db : Db)
    (hembed : c.semanticEmbed = .error ())
    (hexact : get_exact_match (generate_query_hash sha256hex messages model)
        user_id db = none)
    (hgpt : pyStartsWith model "gpt" = true)
    (resp : LlmResponse) (hllm : c.openai = .ok resp)
    (emb : String) (hse : c.storeEmbed = .ok emb) (hsi : c.storeInsert = .ok ()) :
    get_semantic_matches c.semanticEmbed c.semanticRpc = [] ∧
    (chat_completions sha256hex c now rt messages model user_id db).1 =
      .ok { content := resp.content, cached := false, cache_type := none,
            similarity := none, usage := some resp.usage } := by
  have hsem : get_semantic_matches c.semanticEmbed c.semanticRpc = [] := by
    rw [hembed]; rfl
  refine ⟨hsem, ?_⟩
  rw [chat_completions_miss_run sha256hex c now rt messages model user_id db
    hexact hsem hgpt resp hllm emb hse hsi]

/-- C8 witness: a concrete run with a failing embedding collaborator. -/
theorem C8_witness :
    (chat_completions (fun s => s)
      { semanticEmbed := .error (), semanticRpc := .ok [],
        openai := .ok { content := "hello", usage := ⟨1, 2, 3⟩ },
        storeEmbed := .ok "e", storeInsert := .ok (), logInsertOk := true }
      0 0 [[("role", "user"), ("content", "hi")]] "gpt-3.5-turbo" "u" emptyDb).1 =
    .ok { content := "hello", cached := false, cache_type := none,
          similarity := none, usage := some ⟨1, 2, 3⟩ } :=
  (C8_embedding_failure_no_match (fun s => s) _ 0 0 _ "gpt-3.5-turbo" "u" emptyDb
    rfl rfl rfl { content := "hello", usage := ⟨1, 2, 3⟩ } rfl "e" rfl rfl).2

/-! ## C2 -/

/-- C2 counterexample: an owner on the paid "startup" plan with finite
monthly quota 1000 whose current-month request count is already 1000 is NOT
denied: `check_usage_limit` returns the allow-with-overage result instead of
raising the 429 quota error, refuting the claim that every owner of a
finite-quota plan at quota is denied. -/
theorem C2_counterexample :
    check_usage_limit (check_usage_limits false "startup" (some 1000) (some 1000)) =
      .allowed true 0 := by
  rfl

/-- C2 amended: the admission predicate is `current_usage < quota`, with
`quota = null` meaning always admitted (so an unlimited plan is never denied
for quota); but an over-quota owner is denied with the 429 quota error only
on the free plan — on any other plan the request is admitted with the
overage flagged. -/
theorem C2_quota_gate (plan_name : String) (q u : Nat)
    (hplan : plan_name ≠ "free") :
    ((check_usage_limits false plan_name (some q) (some u)).within_limits =
        decide (u < q)) ∧
    check_usage_limit (check_usage_limits false plan_name none (some u)) =
      .allowed false 0 ∧
    (u < q → ∀ p : String,
      check_usage_limit (check_usage_limits false p (some q) (some u)) =
        .allowed false 0) ∧
    (q ≤ u →
      check_usage_limit (check_usage_limits false "free" (some q) (some u)) =
        .denied 429 u (some q)) ∧
    (q ≤ u →
      check_usage_limit (check_usage_limits false plan_name (some q) (some u)) =
        .allowed true
          (check_usage_limits false plan_name (some q) (some u)).overage) := by
  refine ⟨rfl, rfl, ?_, ?_, ?_⟩
  · intro h p
    simp [check_usage_limits, check_usage_limit, h]
  · intro h
    simp [check_usage_limits, check_usage_limit, Nat.not_lt.2 h]
  · intro h
    simp [check_usage_limits, check_usage_limit, Nat.not_lt.2 h, hplan]

/-- C2 witness: the amended quota gate applied to a concrete under-quota
paid-plan owner. -/
theorem C2_witness :
    check_usage_limit (check_usage_limits false "startup" (some 1000) (some 5)) =
      .allowed false 0 :=
  (C2_quota_gate "startup" 1000 5 (by decide)).2.2.1 (by decide) "startup"

/-! ## C4 -/

/-- C4 (the code contradicts the claimed rate-limit behavior): the free
plan's cap is 10 and `dispatch` would answer 429 with `Retry-After: 60` on a
failed check, but `_check_rate_limit` calls
`subscription_service.get_subscription_details`, a method that does not
exist, so every call raises `AttributeError`, is caught by the handler, and
admits the request: the counter is never consulted and all eleven requests of
the same minute bucket are admitted instead of the 11th being denied. -/
theorem C4_rate_limit_never_denies :
    rate_limits "free" = 10 ∧
    get_subscription_details_call = .error () ∧
    (∀ (u : String) (m : Nat) (counts : RateCounts),
        check_rate_limit_actual u m counts = (true, counts)) ∧
    (∀ (u : String) (m : Nat) (counts : RateCounts),
        rate_limit_dispatch get_subscription_details_call (some u) m counts =
          (.forwarded, counts)) ∧
    iterateChecks "owner" 100 11 [] = List.replicate 11 true := by
  exact ⟨rfl, rfl, fun u m counts => rfl, fun u m counts => rfl, rfl⟩

/-! ## C5 -/

/-- C5 counterexample: the feature check does not fail open.  For the
feature "custom_models" (required on `/api/models/custom`) on a plan lacking
it, a successful user-features read saying "enabled" admits the request, but
a failed read makes `has_feature` return false and the gate denies with 403:
a read failure causes a denial. -/
theorem C5_counterexample :
    has_feature {} "custom_models" (.ok (some true)) = true ∧
    has_feature {} "custom_models" (.error ()) = false ∧
    featureGateDispatch "/api/models/custom" (some "u") {} (.error ()) =
      .deny 403 :=
  ⟨rfl, rfl, rfl⟩

/-- C5 amended: the quota and rate checks fail open — a failed read of
subscription or usage state yields "allow" — but the feature check fails
closed: for a feature that is neither a built-in plan flag nor in the plan's
JSON features, a failed user-features read makes `has_feature` return
false (hence a FeatureUnavailable denial at the gate). -/
theorem C5_fail_open_only_quota_and_rate
    (plan_name : String) (q : Option Nat) (row : Option Nat)
    (user : String) (minute : Nat) (counts : RateCounts)
    (plan : PlanFlags) (fname : String)
    (h1 : fname ≠ "custom_similarity") (h2 : fname ≠ "advanced_analytics")
    (h3 : fname ≠ "priority_support") (h4 : fname ≠ "sso")
    (h5 : fname ≠ "white_label") (h6 : fname ≠ "ab_testing")
    (h7 : fname ≠ "webhooks")
    (hjson : plan.features.lookup fname = none) :
    (check_usage_limits true plan_name q row).within_limits = true ∧
    check_usage_limit (check_usage_limits true plan_name q row) =
      .allowed false 0 ∧
    check_rate_limit (.error ()) user minute counts = (true, counts) ∧
    has_feature plan fname (.error ()) = false := by
  refine ⟨rfl, rfl, rfl, ?_⟩
  simp [has_feature, h1, h2, h3, h4, h5, h6, h7, hjson]

/-- C5 witness: the amended theorem applied to the concrete feature
"custom_models" on a default plan. -/
theorem C5_witness :
    has_feature {} "custom_models" (.error ()) = false :=
  (C5_fail_open_only_quota_and_rate "free" none none "u" 0 [] {} "custom_models"
    (by decide) (by decide) (by decide) (by decide) (by decide) (by decide)
    (by decide) rfl).2.2.2

/-! ## C9 -/

/-- C9 (the code contradicts the claimed accounting): `_track_usage` invokes
`increment_usage` with keyword arguments (`is_cache_hit`, `tokens_saved`,
`cost_saved`) that are not parameters of
`increment_usage(user_id, requests_count, cache_hit)`, so the call raises
`TypeError`, `_track_usage` swallows it, and no MonthlyUsage field changes on
either the hit or the miss path; and even a correctly invoked
`increment_usage` increments `requests_used` and exactly one of
`cache_hits`/`cache_misses` but never the tokens-saved/cost-saved totals,
shown here on a concrete row. -/
theorem C9_increment_usage_mismatch :
    (∀ (b : Bool) (run : List MonthlyUsageRow → List MonthlyUsageRow)
        (rows : List MonthlyUsageRow), track_usage_monthly b run rows = rows) ∧
    increment_usage "u" 1 true "2025-10"
        (.ok (some
          { id := 1, user_id := "u", month_year := "2025-10",
            requests_used := 5, cache_hits := 2, cache_misses := 3,
            tokens_saved := 7, cost_saved := 9 }))
        [{ id := 1, user_id := "u", month_year := "2025-10",
           requests_used := 5, cache_hits := 2, cache_misses := 3,
           tokens_saved := 7, cost_saved := 9 }] 2 =
      [{ id := 1, user_id := "u", month_year := "2025-10",
         requests_used := 6, cache_hits := 3, cache_misses := 3,
         tokens_saved := 7, cost_saved := 9 }] := by
  constructor
  · intro b run rows
    cases b <;> rfl
  · rfl

/-! ## C10 -/

theorem update_hit_count_usage_logs (i : Nat) (db : Db) :
    (update_hit_count i db).usage_logs = db.usage_logs := by
  unfold update_hit_count
  split <;> rfl

theorem store_cache_entry_usage_logs
    {user_id query_hash query_text response_text model : String}
    {tokens_used : Nat} {cost : Rat}
    {e : Except Unit String} {i : Except Unit Unit} {now : Nat} {db : Db}
    {row : CacheEntryRow} {db' : Db}
    (h : store_cache_entry user_id query_hash query_text response_text model
      tokens_used cost e i now db = .ok (row, db')) :
    db'.usage_logs = db.usage_logs := by
  unfold store_cache_entry at h
  cases e with
  | error u => simp at h
  | ok emb =>
    cases i with
    | error u => simp at h
    | ok u =>
      simp only [Except.ok.injEq, Prod.mk.injEq] at h
      rw [← h.2]

theorem hitLogsZero_log_usage (user : String) (api : Option String)
    (hit : Bool) (tok : Nat) (cost : Rat) (model : String) (rt : Nat)
    (ok : Bool) (db : Db)
    (hinv : hitLogsZero db.usage_logs)
    (hrow : hit = true → tok = 0 ∧ cost = 0) :
    hitLogsZero (log_usage user api hit tok cost model rt ok db).usage_logs := by
  unfold log_usage
  split
  · intro r hr hhit
    rcases List.mem_append.1 hr with h1 | h1
    · exact hinv r h1 hhit
    · rw [List.mem_singleton] at h1
      subst h1
      exact hrow hhit
  · exact hinv

/-- C10 (implicit): every usage-log row the pipeline writes for a cache hit
carries `tokens_used = 0` and `cost = 0` (one pipeline step preserves the
invariant from any state satisfying it); consequently the stats endpoint's
`total_tokens_saved` and `total_cost_saved` — sums of exactly those fields
over the owner's cache-hit rows — are 0 for every owner, and when the owner
has no logged requests `cache_hit_rate` is the fallback 0 rather than a
division error. -/
theorem C10_stats_savings_zero
    (sha256hex : String → String) (c : Collab) (now rt : Nat)
    (messages : List Msg) (model user_id : String) (db : Db)
    (hinv : hitLogsZero db.usage_logs) :
    hitLogsZero
      ((chat_completions sha256hex c now rt messages model user_id db).2).usage_logs ∧
    (get_cache_stats user_id db).total_tokens_saved = 0 ∧
    (get_cache_stats user_id db).total_cost_saved = 0 ∧
    (db.usage_logs.filter (fun l => l.user_id == user_id) = [] →
      (get_cache_stats user_id db).cache_hit_rate = 0) := by
  refine ⟨?_, ?_, ?_, ?_⟩
  · unfold chat_completions
    cases hE : get_exact_match (generate_query_hash sha256hex messages model)
        user_id db with
    | some entry =>
      simp only [hE]
      refine hitLogsZero_log_usage _ _ _ _ _ _ _ _ _ ?_ (fun _ => ⟨rfl, rfl⟩)
      rw [update_hit_count_usage_logs]
      exact hinv
    | none =>
      simp only [hE]
      cases hS : get_semantic_matches c.semanticEmbed c.semanticRpc with
      | cons best rest =>
        simp only [hS]
        refine hitLogsZero_log_usage _ _ _ _ _ _ _ _ _ ?_ (fun _ => ⟨rfl, rfl⟩)
        rw [update_hit_count_usage_logs]
        exact hinv
      | nil =>
        simp only [hS]
        cases hL : (if pyStartsWith model "gpt" then
            match c.openai with
            | .ok r => Except.ok r
            | .error _ => Except.error 500
          else if pyStartsWith model "claude" then (Except.error 500 : Except Nat LlmResponse)
          else Except.error 400) with
        | error s =>
          simp only [hL]
          exact hinv
        | ok llm =>
          simp only [hL]
          cases hSt : store_cache_entry user_id
              (generate_query_hash sha256hex messages model)
              (dumpsMessagesRaw messages) llm.content model
              llm.usage.total_tokens
              ((llm.usage.total_tokens : Rat) * cost_per_token)
              c.storeEmbed c.storeInsert now db with
          | error u =>
            simp only [hSt]
            exact hinv
          | ok pair =>
            obtain ⟨r0, db1⟩ := pair
            simp only [hSt]
            refine hitLogsZero_log_usage _ _ _ _ _ _ _ _ _ ?_
              (fun hfalse => by cases hfalse)
            rw [store_cache_entry_usage_logs hSt]
            exact hinv
  · apply List.sum_eq_zero
    intro x hx
    simp only [List.mem_map, List.mem_filter] at hx
    obtain ⟨l, ⟨⟨hl, _⟩, hhit⟩, rfl⟩ := hx
    exact (hinv l hl hhit).1
  · apply List.sum_eq_zero
    intro x hx
    simp only [List.mem_map, List.mem_filter] at hx
    obtain ⟨l, ⟨⟨hl, _⟩, hhit⟩, rfl⟩ := hx
    exact (hinv l hl hhit).2
  · intro h
    simp [get_cache_stats, h]

/-- C10 witness: the stats conclusions on the concrete empty database. -/
theorem C10_witness :
    (get_cache_stats "u" emptyDb).total_tokens_saved = 0 ∧
    (get_cache_stats "u" emptyDb).total_cost_saved = 0 ∧
    (get_cache_stats "u" emptyDb).cache_hit_rate = 0 := by
  have h0 : hitLogsZero emptyDb.usage_logs :=
    fun r hr => absurd hr (List.not_mem_nil r)
  have h := C10_stats_savings_zero (fun s => s)
    { semanticEmbed := .ok "e", semanticRpc := .ok [],
      openai := .ok { content := "hello", usage := ⟨1, 2, 3⟩ },
      storeEmbed := .ok "e", storeInsert := .ok (), logInsertOk := true }
    0 0 [[("role", "user"), ("content", "hi")]] "gpt-3.5-turbo" "u" emptyDb h0
  exact ⟨h.2.1, h.2.2.1, h.2.2.2 rfl⟩

end CacheGPT
